import Mathlib

/-!
Shallow embedding of the MyWavinHome portal client
(`custom_components/my_wavin_home/api.py`) and proofs about its
authentication, room-listing pagination, parsing, and setpoint-mutation
behaviour.  Python strings are Lean `String`s, Python `dict`s are
insertion-ordered association lists, machine floats appearing in the
temperature arithmetic are modelled as rationals (every value the code
manipulates is a short decimal, exactly representable), and raised
exceptions are explicit `Except` errors / outcome constructors.
-/

namespace WavinApi

/-- The two exception classes declared by `api.py`:
`AuthenticationError` and `ConnectionError`. -/
inductive ApiError where
  | authenticationError
  | connectionError
  deriving DecidableEq, Repr

/-- Python runtime exceptions that the embedded code can raise and does not
catch itself (`AttributeError` from attribute access on `None`,
`ValueError` from a failed `float(...)` conversion). -/
inductive PyExn where
  | attributeError
  | valueError
  deriving DecidableEq, Repr

/-! ### Python string primitives used by `api.py` -/

/-- Python `haystack.find(needle, start)` restricted to a found result:
the least index `i ≥ start` at which `needle` occurs in `haystack`,
`none` when there is none (Python returns `-1` there; the callers in
`api.py` branch on that case explicitly, which the `Option` mirrors). -/
def pyFind (haystack needle : String) (start : Nat) : Option Nat :=
  (List.range (haystack.length + 1)).find? fun i =>
    decide (start ≤ i) && needle.toList.isPrefixOf (haystack.toList.drop i)

/-- Python slice `s[a:b]` (for `0 ≤ a ≤ b` as used in `authenticate`). -/
def pySlice (s : String) (a b : Nat) : String :=
  ((s.toList.drop a).take (b - a)).asString

/-- Python `s.strip()`: drop leading and trailing whitespace. -/
def pyStrip (s : String) : String :=
  ((s.toList.dropWhile Char.isWhitespace).reverse.dropWhile
    Char.isWhitespace).reverse.asString

/-- Python truthiness of an optional string: `None` and `""` are falsy. -/
def pyTruthy : Option String → Bool
  | none => false
  | some s => s ≠ ""

/-! ### `authenticate` (api.py lines 120–175) -/

/-- The login HTTP response as `authenticate` observes it: the status code,
the `Set-Cookie` header (the Python code reads it with default `""`, so a
missing header is the empty string), and the session's cookie jar, a
sequence of `(key, value)` cookies. -/
structure LoginResponse where
  status : Nat
  setCookie : String
  cookieJar : List (String × String)
  deriving Repr

/-- The transport-level result of the login POST: either a response came
back, or `asyncio.TimeoutError` / `aiohttp.ClientError` was raised. -/
inductive LoginResult where
  | response (r : LoginResponse)
  | timeout
  | clientError
  deriving Repr

/-- Lines 149–154: scan the `Set-Cookie` header for `PHPSESSID=`, take the
characters up to the next `;` (or the end of the header) and strip
whitespace.  `none` when the marker does not occur at all. -/
def extractHeaderToken (setCookie : String) : Option String :=
  match pyFind setCookie "PHPSESSID=" 0 with
  | none => none
  | some i =>
      let start := i + "PHPSESSID=".length
      let stop := (pyFind setCookie ";" start).getD setCookie.length
      some (pyStrip (pySlice setCookie start stop))

/-- Lines 156–161: the first cookie in the jar whose key is `PHPSESSID`. -/
def jarToken (jar : List (String × String)) : Option String :=
  (jar.find? fun c => c.1 == "PHPSESSID").map (·.2)

/-- The client state that `authenticate` and `close` touch:
`session_id` (the stored token, `None` before the first login) and
`_session` (the aiohttp transport session reference, modelled as an
opaque presence flag since the code only stores and drops it). -/
structure ClientState where
  session_id : Option String
  transport : Option Unit
  deriving DecidableEq, Repr

/-- `authenticate` (lines 120–175).  Branches exactly as the source:
401 ⇒ `AuthenticationError`; any other non-200 ⇒ `ConnectionError`;
timeout / `ClientError` ⇒ `ConnectionError`; on 200 the session id is the
header token when that is truthy, else the jar token when the jar has one,
and a falsy final value ⇒ `AuthenticationError`.  On success the token is
returned and stored into the client state. -/
def authenticate (st : ClientState) (res : LoginResult) :
    Except ApiError (String × ClientState) :=
  match res with
  | .timeout => .error .connectionError
  | .clientError => .error .connectionError
  | .response r =>
      if r.status == 401 then .error .authenticationError
      else if r.status != 200 then .error .connectionError
      else
        -- line 146: self.session_id = None, then the header path
        let sid1 : Option String := extractHeaderToken r.setCookie
        -- line 156: `if not self.session_id:` fall back to the cookie jar
        let sid2 : Option String :=
          if pyTruthy sid1 then sid1
          else match jarToken r.cookieJar with
            | some v => some v
            | none => sid1
        -- line 163: `if not self.session_id:` raise AuthenticationError
        match sid2 with
        | some t =>
            if t = "" then .error .authenticationError
            else .ok (t, { st with session_id := some t })
        | none => .error .authenticationError

/-! ### `set_room_target_temperature` (api.py lines 281–366)

The temperature arithmetic runs on Python floats; the portal's
temperatures are multiples of one half (the integration exposes a 0.5°
step), which binary floats represent exactly, so `ℚ` models the float
computations of these lines without error. -/

/-- Python `s.split(sep)` for a one-character separator
(the code splits on `","` and `"/"`). -/
def splitOnChar (cs : List Char) (sep : Char) : List (List Char) :=
  match cs with
  | [] => [[]]
  | c :: rest =>
      let r := splitOnChar rest sep
      if c = sep then [] :: r
      else
        match r with
        | [] => [[c]]
        | h :: t => (c :: h) :: t

/-- Python `s[:-n]`: all characters but the last `n`. -/
def pyDropLast (s : String) (n : Nat) : String :=
  (s.toList.take (s.length - n)).asString

/-- The numeric value of a digit string. -/
def digitsToNat (cs : List Char) : Nat :=
  cs.foldl (fun a c => a * 10 + (c.toNat - 48)) 0

/-- Python `float(s)` on the plain decimal literals the settings pages
carry (optional sign, digits, optional fractional part), as the exact
rational value of the literal; `none` is the `ValueError` raise.  The
portal's temperatures are multiples of one half, which binary floats
represent exactly, so no rounding is lost here. -/
def pyFloat? (s : String) : Option ℚ :=
  let t := pyStrip s
  let sb : Int × List Char :=
    match t.toList with
    | '-' :: rest => (-1, rest)
    | '+' :: rest => (1, rest)
    | cs => (1, cs)
  match splitOnChar sb.2 '.' with
  | [ip] =>
      if ip ≠ [] ∧ ip.all Char.isDigit then
        some (mkRat (sb.1 * digitsToNat ip) 1)
      else none
  | [ip, fp] =>
      if (ip ≠ [] ∨ fp ≠ []) ∧ ip.all Char.isDigit ∧ fp.all Char.isDigit then
        some (mkRat
          (sb.1 * (digitsToNat ip * 10 ^ fp.length + digitsToNat fp))
          (10 ^ fp.length))
      else none
  | _ => none

/-- Exact subtraction on `ℚ` by cross multiplication.  Agrees with `Sub ℚ`
(`ratSub_eq_sub` below) but, unlike it, evaluates definitionally, which
the concrete witnesses need. -/
def ratSub (a b : ℚ) : ℚ :=
  mkRat (a.num * (b.den : Int) - b.num * (a.den : Int)) (a.den * b.den)

/-- Python `int(x)` on a number: truncation toward zero. -/
def pyInt (q : ℚ) : ℤ :=
  if q.num < 0 then -((q.num.natAbs / q.den : ℕ) : ℤ)
  else ((q.num.natAbs / q.den : ℕ) : ℤ)

/-- Python `s.startswith(pre)`. -/
def pyStartsWith (s pre : String) : Bool :=
  pre.toList.isPrefixOf s.toList

/-- The single-quote character of the jQuery selector literal. -/
def quoteChar : Char := '\''

/-- The literal prefix of the regex on line 306: dollar, open paren,
single quote, hash. -/
def dollarSelPat : List Char := ['$', '(', quoteChar, '#']

/-- One anchored attempt of the regex on line 306 at the head of `cs`:
the literal prefix, then a greedy alphanumeric run, then quote and
closing paren; the run is the captured group. -/
def matchSelAt (cs : List Char) : Option String :=
  if dollarSelPat.isPrefixOf cs then
    let rest := cs.drop dollarSelPat.length
    let run := rest.takeWhile Char.isAlphanum
    if [quoteChar, ')'].isPrefixOf (rest.drop run.length) then
      some run.asString
    else none
  else none

/-- Line 306: `re.search` of the jQuery-selector pattern over the script
text — the leftmost match's captured element id. -/
def extractDollarId (s : String) : Option String :=
  (List.range (s.length + 1)).findSome? fun i => matchSelAt (s.toList.drop i)

/-- One selector button (a `div[onclick]` inside `#thermostatBG`): its
`id` attribute and `onclick` attribute, both read with default `""`. -/
structure SelectorButton where
  id : String
  onclick : String
  deriving DecidableEq, Repr

/-- The room settings page as `set_room_target_temperature` observes it:
the text of `#myModeVal` (`none` when the element is missing), the
selector buttons in document order, and the `.string` of the script tag
inside `#thermostatBG` (`none` when there is no tag or it has no
string). -/
structure SettingsPage where
  myModeValText : Option String
  buttons : List SelectorButton
  scriptText : Option String
  deriving Repr

/-- The observable outcome of `set_room_target_temperature`: the
settemperature POST with its form data, the delta-zero early return, one
of the logged silent aborts, or an uncaught Python exception. -/
inductive SetTempOutcome where
  | posted (id : String) (value : String)
  | noChange
  | silentAbort
  | raised (e : PyExn)
  deriving DecidableEq, Repr

/-- Lines 350–352: the comma-separated parameter list sliced out of the
onclick handler between the first `(` and the first `)` (Python's `-1`
results of `find` flow into the slice as in the source). -/
def onclickParams (js : String) : List String :=
  let ps := match pyFind js "(" 0 with | some i => i + 1 | none => 0
  let pe := match pyFind js ")" 0 with | some i => i | none => js.length - 1
  (splitOnChar (pySlice js ps pe).toList ',').map List.asString

/-- `set_room_target_temperature` (lines 281–366), from the settings-page
fetch result onward.  Mirrors the source's control flow: missing
`#myModeVal` raises `AttributeError` (line 293), an unparsable value
raises `ValueError`, zero delta returns early (line 296), each structural
check that fails logs and returns (lines 303–355), an out-of-bounds new
index returns (line 337), and otherwise the POST is issued with the room
id and the second onclick parameter (lines 357–366). -/
def set_room_target_temperature (room_id : String) (page : SettingsPage)
    (target_temperature : ℚ) : SetTempOutcome :=
  match page.myModeValText with
  | none => .raised .attributeError
  | some txt =>
      match pyFloat? (pyDropLast txt 2) with
      | none => .raised .valueError
      | some current =>
          let diff := ratSub current target_temperature
          if diff = 0 then .noChange
          else
            match page.scriptText with
            | none => .silentAbort
            | some sct =>
                match extractDollarId sct with
                | none => .silentAbort
                | some elemId =>
                    if page.buttons = [] then .silentAbort
                    else
                      match page.buttons.findIdx? (fun b => b.id == elemId) with
                      | none => .silentAbort
                      | some curIdx =>
                          let newIdx : ℤ := (curIdx : ℤ) - pyInt diff
                          if newIdx < 0 ∨ (page.buttons.length : ℤ) ≤ newIdx then
                            .silentAbort
                          else
                            match page.buttons.get? newIdx.toNat with
                            | none => .silentAbort
                            | some btn =>
                                if pyStartsWith btn.onclick
                                    "javascript:setTemperature" then
                                  match onclickParams btn.onclick with
                                  | [_p0, p1, _p2] => .posted room_id p1
                                  | _ => .silentAbort
                                else .silentAbort

/-- The HTTP requests `set_room_target_temperature` issues after the
initial settings-page fetch: the only such request in the source is the
final settemperature POST (line 360). -/
def extraHttpRequests : SetTempOutcome → Nat
  | .posted _ _ => 1
  | _ => 0

/-- An outcome that returns without raising and performs no POST: the
zero-delta early return or one of the logged silent aborts. -/
def SetTempOutcome.isSilentNoOp : SetTempOutcome → Bool
  | .noChange => true
  | .silentAbort => true
  | _ => false

/-- Ten selector buttons as the settings page renders them, ids `b0`–`b9`,
each with a well-formed `setTemperature` onclick handler. -/
def pageC1Buttons : List SelectorButton :=
  [⟨"b0", "javascript:setTemperature(1,9900,0);"⟩,
   ⟨"b1", "javascript:setTemperature(1,9901,0);"⟩,
   ⟨"b2", "javascript:setTemperature(1,9902,0);"⟩,
   ⟨"b3", "javascript:setTemperature(1,9903,0);"⟩,
   ⟨"b4", "javascript:setTemperature(1,9904,0);"⟩,
   ⟨"b5", "javascript:setTemperature(1,9905,0);"⟩,
   ⟨"b6", "javascript:setTemperature(1,9906,0);"⟩,
   ⟨"b7", "javascript:setTemperature(1,9907,0);"⟩,
   ⟨"b8", "javascript:setTemperature(1,9908,0);"⟩,
   ⟨"b9", "javascript:setTemperature(1,9909,0);"⟩]

/-- A script text whose jQuery selector literal names button `b5` as the
currently selected one. -/
def scriptC1 : String :=
  String.mk (['v', 'a', 'r', ' '] ++ dollarSelPat ++ ['b', '5'] ++
    [quoteChar, ')', ';'])

/-- A well-formed settings page: current target 21.0, ten selector
buttons, current selector index 5. -/
def pageC1 : SettingsPage := ⟨some "21.0째C", pageC1Buttons, some scriptC1⟩

/-- A settings page with no `#myModeVal` element at all. -/
def pageNoModeVal : SettingsPage := ⟨none, [], none⟩

/-- A settings page with a readable current target but no script tag. -/
def pageNoScript : SettingsPage :=
  ⟨some "21.0째C", [⟨"b0", "javascript:setTemperature(1,9900,0);"⟩], none⟩

/-- A settings page whose current target is 21.0, for the zero-delta
case. -/
def pageC8 : SettingsPage := ⟨some "21.0째C", [], none⟩

/-! ### `close` (api.py lines 275–279) and the request cookie header -/

/-- `close` (lines 275–279): drops the aiohttp transport-session
reference only (`self._session = None`); nothing else is touched. -/
def close (st : ClientState) : ClientState := { st with transport := none }

/-- The `Cookie` header attached by `_get_request`/`_post_request`
(lines 48 and 75): the Python f-string rendering of the stored session
id (`None` renders as the text `None`). -/
def cookieHeader (st : ClientState) : String :=
  "PHPSESSID=" ++ (match st.session_id with | some s => s | none => "None")

/-- The `if not self.session_id:` guard at the head of every public
method (lines 179, 192, 223, 288): `true` when a fresh `authenticate`
would be triggered before the next request. -/
def needsAuth (st : ClientState) : Bool :=
  !pyTruthy st.session_id

/-! ### `_fetch_and_parse_rooms` and `_get_request` (api.py 41–66, 233–273) -/

/-- Python `s.endswith(suffix)`. -/
def pyEndsWith (s sfx : String) : Bool :=
  sfx.toList.isSuffixOf s.toList

/-- Line 254: `link.split('/')[-1] if '/' in link else link`. -/
def lastSegment (link : String) : String :=
  if link.toList.contains '/' then
    match (splitOnChar link.toList '/').getLast? with
    | some l => l.asString
    | none => link
  else link

/-- One `.items .listview` room block as the parser observes it:
the `value` attribute of its `.thermoInput` element (`none` when the
element is missing — `.get` on the `None` from `select_one` raises),
the `href` of its `.thermHeader a` element (likewise), and the texts of
its `.thermHeader2` elements in document order. -/
structure RoomEntry where
  thermoInputValue : Option String
  hrefLink : Option String
  headerTexts : List String
  deriving Repr

/-- One listing page: its room blocks, and whether a `.next` control is
present and whether it carries the `hidden` class (the code continues
exactly when `select_one` of `.next:not(.hidden)` finds an element). -/
structure ListingPage where
  entries : List RoomEntry
  nextPresent : Bool
  nextHidden : Bool
  deriving Repr

/-- The parsed per-room record stored in the rooms dict (line 263). -/
structure RoomInfo where
  name : String
  temperature : String
  humidity : String
  deriving DecidableEq, Repr

/-- The rooms mapping, as Python's insertion-ordered `dict`. -/
abbrev RoomDict := List (String × RoomInfo)

/-- Python `d[k] = v`: overwrite in place when the key exists, else
append. -/
def dictInsert (d : RoomDict) (k : String) (v : RoomInfo) : RoomDict :=
  if d.any (fun p => p.1 == k) then
    d.map (fun p => if p.1 == k then (k, v) else p)
  else d ++ [(k, v)]

/-- Python `d.update(d2)` (line 269): insert every entry of `d2` into
`d`, overwriting entries with the same key. -/
def dictUpdate (d d2 : RoomDict) : RoomDict :=
  d2.foldl (fun acc p => dictInsert acc p.1 p.2) d

/-- Python `d.get(k)` / `d[k]` lookup: the first entry with the key
(entries have pairwise-distinct keys, as Python dicts do). -/
def dictGet? (d : RoomDict) (k : String) : Option RoomInfo :=
  match d with
  | [] => none
  | (k1, v1) :: rest => if k1 == k then some v1 else dictGet? rest k

/-- Lines 255–260: fold the `.thermHeader2` texts, the ` rh%` suffix
marking humidity (stripped as `text[:-4]`), the `째C` suffix marking
temperature (stripped as `text[:-2]`); the result is
(temperature, humidity), each `none` when never assigned. -/
def scanTherm (texts : List String) : Option String × Option String :=
  texts.foldl
    (fun (acc : Option String × Option String) text =>
      if pyEndsWith text " rh%" then (acc.1, some (pyDropLast text 4))
      else if pyEndsWith text "째C" then (some (pyDropLast text 2), acc.2)
      else acc)
    (none, none)

/-- Lines 248–263 for one room block: name from the `.thermoInput` value,
id from the details link, temperature/humidity from the suffix scan;
`temperature.strip()` is evaluated before `humidity.strip()`, each
raising `AttributeError` when the value is still `None`. -/
def parseRoomEntry (e : RoomEntry) : Except PyExn (String × RoomInfo) :=
  match e.thermoInputValue with
  | none => .error .attributeError
  | some room_name =>
      match e.hrefLink with
      | none => .error .attributeError
      | some link =>
          let room_id := lastSegment link
          let th := scanTherm e.headerTexts
          match th.1 with
          | none => .error .attributeError
          | some temp =>
              match th.2 with
              | none => .error .attributeError
              | some hum =>
                  .ok (room_id, ⟨room_name, pyStrip temp, pyStrip hum⟩)

/-- The room-block loop of lines 248–263 over the remaining blocks:
insert each parsed room into the accumulated dict, propagating the first
raised exception. -/
def parseRoomsAux (es : List RoomEntry) (acc : RoomDict) :
    Except PyExn RoomDict :=
  match es with
  | [] => .ok acc
  | e :: rest =>
      match parseRoomEntry e with
      | .error ex => .error ex
      | .ok kv => parseRoomsAux rest (dictInsert acc kv.1 kv.2)

/-- Lines 247–263: the page's rooms dict, starting from `rooms = {}`. -/
def parseListingPage (p : ListingPage) : Except PyExn RoomDict :=
  parseRoomsAux p.entries []

/-- One listing-page HTTP response as `_get_request` observes it. -/
inductive PageResp where
  | ok (body : ListingPage)
  | unauthorized
  | status (code : Nat)
  | timeout
  | netError
  deriving Repr

/-- The deterministic transport oracle: the response the server gives the
`attempt`-th fetch (0-based) of a listing page number. -/
structure Transport where
  resp : Nat → Nat → PageResp

/-- `_get_request` (lines 41–66) for a listing-page URL: a 401 response
re-authenticates and retries the same URL (lines 53–58, the recursion the
source leaves unbounded — `fuel` bounds it here, and every theorem below
supplies enough); any other non-200, a timeout, or a transport error
raises `ConnectionError`.  Re-authentication itself is modelled as
succeeding, as in the claims' scenarios (live credentials).  Returns the
body together with the number of page fetches and of re-authentications
performed. -/
def get_request (t : Transport) (page : Nat) :
    Nat → Nat → Except ApiError (ListingPage × Nat × Nat)
  | _attempt, 0 => .error .connectionError
  | attempt, fuel + 1 =>
      match t.resp page attempt with
      | .ok body => .ok (body, 1, 0)
      | .unauthorized =>
          match get_request t page (attempt + 1) fuel with
          | .ok (body, f, r) => .ok (body, f + 1, r + 1)
          | .error e => .error e
      | .status _ => .error .connectionError
      | .timeout => .error .connectionError
      | .netError => .error .connectionError

/-- `_fetch_and_parse_rooms` (lines 233–273): fetch the page, parse its
room blocks, and when the `.next:not(.hidden)` control is present recurse
on the next page number and merge with `dict.update`; the enclosing
`except Exception` re-raises every failure (fetch, parse, or recursive)
as `ConnectionError`.  The page recursion is also unbounded in the
source; `fuel` bounds it.  Returns the merged rooms dict with the total
fetch and re-authentication counts. -/
def fetch_and_parse_rooms (t : Transport) :
    Nat → Nat → Except ApiError (RoomDict × Nat × Nat)
  | _page, 0 => .error .connectionError
  | page, fuel + 1 =>
      match get_request t page 0 (fuel + 1) with
      | .error _ => .error .connectionError
      | .ok (body, f, r) =>
          match parseListingPage body with
          | .error _ => .error .connectionError
          | .ok rooms =>
              if body.nextPresent && !body.nextHidden then
                match fetch_and_parse_rooms t (page + 1) fuel with
                | .error _ => .error .connectionError
                | .ok (rooms2, f2, r2) =>
                    .ok (dictUpdate rooms rooms2, f + f2, r + r2)
              else .ok (rooms, f, r)

/-- The directory fetch of `get_room_temperatures` (line 182): the page
walk starts at page 1. -/
def listRooms (t : Transport) (fuel : Nat) :
    Except ApiError (RoomDict × Nat × Nat) :=
  fetch_and_parse_rooms t 1 fuel

/-! ### Concrete fixtures for the closed witnesses and counterexamples -/

/-- A listing page with no rooms and no next control. -/
def emptyPage : ListingPage := ⟨[], false, false⟩

/-- A server that always answers 200 with the empty page. -/
def tCleanC4 : Transport := ⟨fun _ _ => .ok emptyPage⟩

/-- The same server except that the very first fetch of page 1 answers
401; the retry succeeds. -/
def t401C4 : Transport :=
  ⟨fun p a =>
    match p, a with
    | 1, 0 => .unauthorized
    | _, _ => .ok emptyPage⟩

/-- A two-page listing: page 1 (one room, visible next control) and
page 2 (one other room, no next control). -/
def entryC5a : RoomEntry :=
  ⟨some "Living", some "settings/11", ["21.5째C", "45 rh%"]⟩

/-- Second room of the two-page listing. -/
def entryC5b : RoomEntry :=
  ⟨some "Bedroom", some "settings/12", ["20.0째C", "40 rh%"]⟩

/-- Page 1 of the two-page listing. -/
def pgC5a : ListingPage := ⟨[entryC5a], true, false⟩

/-- Page 2 of the two-page listing. -/
def pgC5b : ListingPage := ⟨[entryC5b], false, false⟩

/-- The two-page server. -/
def tC5 : Transport := ⟨fun p _ => if p = 1 then .ok pgC5a else .ok pgC5b⟩

/-- A room entry with a temperature-suffixed field but no
humidity-suffixed field. -/
def entryC7 : RoomEntry := ⟨some "Living", some "settings/9130575", ["21.5째C"]⟩

/-- A single listing page holding only `entryC7`. -/
def pgC7 : ListingPage := ⟨[entryC7], false, false⟩

/-- A server serving only `pgC7`. -/
def tC7 : Transport := ⟨fun _ _ => .ok pgC7⟩

/-- Two pages carrying the same room identifier `77` with different
data. -/
def entryC9a : RoomEntry :=
  ⟨some "Alpha", some "settings/77", ["21.0째C", "45 rh%"]⟩

/-- The later page's entry for the same identifier `77`. -/
def entryC9b : RoomEntry :=
  ⟨some "AlphaLater", some "settings/77", ["22.0째C", "50 rh%"]⟩

/-- Page 1 of the duplicate-identifier listing. -/
def pgC9a : ListingPage := ⟨[entryC9a], true, false⟩

/-- Page 2 of the duplicate-identifier listing. -/
def pgC9b : ListingPage := ⟨[entryC9b], false, false⟩

/-- The duplicate-identifier server. -/
def tC9 : Transport := ⟨fun p _ => if p = 1 then .ok pgC9a else .ok pgC9b⟩

end WavinApi

namespace WavinApi

/-- C3: `authenticate` returns the exact token found in the login
response's session cookie header when present, otherwise the token from
the cookie jar; it fails with `AuthenticationError` on HTTP 401, with
`ConnectionError` on timeout, transport failure, or any other non-200
status, and with `AuthenticationError` when a 200 yields no token from
either path; on success the token is stored in the client's state. -/
theorem authenticate_spec (st : ClientState) (r : LoginResponse) (t : String) :
    (r.status = 200 → extractHeaderToken r.setCookie = some t → t ≠ "" →
      authenticate st (.response r) = .ok (t, { st with session_id := some t })) ∧
    (r.status = 200 → pyTruthy (extractHeaderToken r.setCookie) = false →
      jarToken r.cookieJar = some t → t ≠ "" →
      authenticate st (.response r) = .ok (t, { st with session_id := some t })) ∧
    (r.status = 401 → authenticate st (.response r) = .error .authenticationError) ∧
    (authenticate st .timeout = .error .connectionError) ∧
    (authenticate st .clientError = .error .connectionError) ∧
    (r.status ≠ 200 → r.status ≠ 401 →
      authenticate st (.response r) = .error .connectionError) ∧
    (r.status = 200 → pyTruthy (extractHeaderToken r.setCookie) = false →
      pyTruthy (jarToken r.cookieJar) = false →
      authenticate st (.response r) = .error .authenticationError) ∧
    (∀ tok st2, authenticate st (.response r) = .ok (tok, st2) →
      st2.session_id = some tok) := by
  refine ⟨?_, ?_, ?_, rfl, rfl, ?_, ?_, ?_⟩
  · intro h200 hhdr hne
    simp [authenticate, h200, hhdr, pyTruthy, hne]
  · intro h200 hhdr hjar hne
    simp only [pyTruthy] at hhdr
    simp only [authenticate, h200]
    cases hh : extractHeaderToken r.setCookie with
    | none => simp [hh, hjar, pyTruthy, hne]
    | some s =>
        rw [hh] at hhdr
        simp only [decide_eq_false_iff_not, ne_eq, not_not] at hhdr
        simp [hh, hhdr, hjar, pyTruthy, hne]
  · intro h401
    simp [authenticate, h401]
  · intro hn200 hn401
    simp only [authenticate]
    rw [if_neg (by simpa using hn401), if_pos (by simpa using hn200)]
  · intro h200 hhdr hjar
    simp only [pyTruthy] at hhdr hjar
    simp only [authenticate, h200]
    cases hh : extractHeaderToken r.setCookie with
    | none =>
        cases hj : jarToken r.cookieJar with
        | none => simp [hh, hj, pyTruthy]
        | some v =>
            rw [hj] at hjar
            simp only [decide_eq_false_iff_not, ne_eq, not_not] at hjar
            simp [hh, hj, pyTruthy, hjar]
    | some s =>
        rw [hh] at hhdr
        simp only [decide_eq_false_iff_not, ne_eq, not_not] at hhdr
        cases hj : jarToken r.cookieJar with
        | none => simp [hh, hj, pyTruthy, hhdr]
        | some v =>
            rw [hj] at hjar
            simp only [decide_eq_false_iff_not, ne_eq, not_not] at hjar
            simp [hh, hj, pyTruthy, hhdr, hjar]
  · intro tok st2 hok
    simp only [authenticate] at hok
    by_cases h401 : r.status == 401
    · simp [h401] at hok
    · by_cases h200 : r.status != 200
      · simp [h401, h200] at hok
      · simp only [h401, h200, Bool.false_eq_true, if_false, if_true] at hok
        rcases hh : (if pyTruthy (extractHeaderToken r.setCookie) then
            extractHeaderToken r.setCookie
          else match jarToken r.cookieJar with
            | some v => some v
            | none => extractHeaderToken r.setCookie) with _ | s
        · rw [hh] at hok; simp at hok
        · rw [hh] at hok
          by_cases hs : s = ""
          · simp [hs] at hok
          · simp only [hs, if_neg, if_false] at hok
            have := Except.ok.inj hok
            cases this
            rfl

/-- C3 witness: a 200 login response whose `Set-Cookie` header carries
`PHPSESSID=abc123` makes `authenticate` return exactly `"abc123"` and
store it in the client state. -/
theorem authenticate_spec_witness :
    authenticate ⟨none, none⟩
        (.response ⟨200, "PHPSESSID=abc123; Path=/", []⟩) =
      .ok ("abc123", ⟨some "abc123", none⟩) :=
  (authenticate_spec ⟨none, none⟩ ⟨200, "PHPSESSID=abc123; Path=/", []⟩
    "abc123").1 rfl (by decide) (by decide)

end WavinApi

namespace WavinApi

/-- `ratSub` agrees with the subtraction of `ℚ`. -/
theorem ratSub_eq_sub (a b : ℚ) : ratSub a b = a - b :=
  (Rat.sub_def' a b).symm

/-- C1 (amended): once the mutator has located the current selector index,
the new selector index is the current index minus the truncation-toward-
zero (Python `int()`) of the delta — not its floor — and an out-of-bounds
new index yields a silent return with no POST; an in-bounds new index
posts the second onclick parameter of the button at that index. -/
theorem set_room_target_index_trunc (room_id : String) (page : SettingsPage)
    (target current : ℚ) (mt sct elemId : String) (curIdx : Nat)
    (hmode : page.myModeValText = some mt)
    (hcur : pyFloat? (pyDropLast mt 2) = some current)
    (hdiff : current ≠ target)
    (hscript : page.scriptText = some sct)
    (hid : extractDollarId sct = some elemId)
    (hfind : page.buttons.findIdx? (fun b => b.id == elemId) = some curIdx) :
    ((curIdx : Int) - pyInt (ratSub current target) < 0 ∨
        (page.buttons.length : Int) ≤ (curIdx : Int) - pyInt (ratSub current target) →
      set_room_target_temperature room_id page target = .silentAbort) ∧
    (∀ btn : SelectorButton,
      ¬((curIdx : Int) - pyInt (ratSub current target) < 0 ∨
        (page.buttons.length : Int) ≤ (curIdx : Int) - pyInt (ratSub current target)) →
      page.buttons.get? ((curIdx : Int) - pyInt (ratSub current target)).toNat = some btn →
      pyStartsWith btn.onclick "javascript:setTemperature" = true →
      ∀ p0 p1 p2 : String, onclickParams btn.onclick = [p0, p1, p2] →
      set_room_target_temperature room_id page target = .posted room_id p1) := by
  have hdiff2 : ratSub current target ≠ 0 := by
    rw [ratSub_eq_sub]; exact sub_ne_zero.mpr hdiff
  have hne : page.buttons ≠ [] := by
    intro h
    rw [h] at hfind
    simp [List.findIdx?] at hfind
  constructor
  · intro hob
    simp only [set_room_target_temperature, hmode, hcur, hscript, hid, hfind,
      if_neg hdiff2, if_neg hne, if_pos hob]
  · intro btn hib hget hsw p0 p1 p2 hparams
    simp only [set_room_target_temperature, hmode, hcur, hscript, hid, hfind,
      if_neg hdiff2, if_neg hne, if_neg hib, hget, hsw, hparams, if_true]

/-- C1 witness: current target 21.0, desired 21.5, current index 5 of 10
buttons — the POST carries button 5's encoded value (index 5 − int(−0.5)
= 5). -/
theorem set_room_target_index_trunc_witness :
    set_room_target_temperature "room1" pageC1 (mkRat 43 2) =
      .posted "room1" "9905" :=
  (set_room_target_index_trunc "room1" pageC1 (mkRat 43 2) (mkRat 21 1)
      "21.0째C" scriptC1 "b5" 5 rfl (by decide) (by decide) rfl (by decide)
      (by decide)).2
    ⟨"b5", "javascript:setTemperature(1,9905,0);"⟩ (by decide) (by decide)
    (by decide) "1" "9905" "0" (by decide)

/-- C1 counterexample: with current target 21.0, desired 21.5 and current
index 5, the claim's floor formula predicts index 5 − ⌊−0.5⌋ = 6 (button
b6, encoded value 9906), but the code posts button 5's value 9905. -/
theorem set_room_target_floor_counterexample :
    set_room_target_temperature "room1" pageC1 (mkRat 43 2) =
      .posted "room1" "9905" ∧
    (5 : Int) - Rat.floor (ratSub (mkRat 21 1) (mkRat 43 2)) = 6 ∧
    pageC1.buttons.get? 6 =
      some ⟨"b6", "javascript:setTemperature(1,9906,0);"⟩ ∧
    ("9905" : String) ≠ "9906" := by
  refine ⟨by decide, by decide, by decide, by decide⟩

/-- C2 (amended): provided the `#myModeVal` element is present with a
parseable value, every enumerated markup deviation — no script tag, no
selector-id match in the script, no selector buttons, current button id
not found, onclick not of the `setTemperature` form, or not exactly three
parameters — makes `set_room_target_temperature` return without raising
and without a POST.  (A page missing `#myModeVal` itself instead raises,
see the counterexample.) -/
theorem set_room_target_markup_silent (room_id : String) (page : SettingsPage)
    (target current : ℚ) (mt : String)
    (hmode : page.myModeValText = some mt)
    (hcur : pyFloat? (pyDropLast mt 2) = some current) :
    (page.scriptText = none →
      (set_room_target_temperature room_id page target).isSilentNoOp = true) ∧
    (∀ sct, page.scriptText = some sct → extractDollarId sct = none →
      (set_room_target_temperature room_id page target).isSilentNoOp = true) ∧
    (page.buttons = [] →
      (set_room_target_temperature room_id page target).isSilentNoOp = true) ∧
    (∀ sct elemId, page.scriptText = some sct →
      extractDollarId sct = some elemId →
      page.buttons.findIdx? (fun b => b.id == elemId) = none →
      (set_room_target_temperature room_id page target).isSilentNoOp = true) ∧
    (∀ sct elemId curIdx btn, page.scriptText = some sct →
      extractDollarId sct = some elemId →
      page.buttons.findIdx? (fun b => b.id == elemId) = some curIdx →
      ¬((curIdx : Int) - pyInt (ratSub current target) < 0 ∨
        (page.buttons.length : Int) ≤
          (curIdx : Int) - pyInt (ratSub current target)) →
      page.buttons.get? ((curIdx : Int) - pyInt (ratSub current target)).toNat
        = some btn →
      (pyStartsWith btn.onclick "javascript:setTemperature" = false ∨
        (onclickParams btn.onclick).length ≠ 3) →
      (set_room_target_temperature room_id page target).isSilentNoOp = true) := by
  by_cases hd : ratSub current target = 0
  · have hnc : set_room_target_temperature room_id page target = .noChange := by
      simp only [set_room_target_temperature, hmode, hcur, if_pos hd]
    refine ⟨fun _ => ?_, fun _ _ _ => ?_, fun _ => ?_, fun _ _ _ _ _ => ?_,
      fun _ _ _ _ _ _ _ _ _ _ => ?_⟩ <;> rw [hnc] <;> rfl
  · refine ⟨?_, ?_, ?_, ?_, ?_⟩
    · intro hs
      simp only [set_room_target_temperature, hmode, hcur, if_neg hd, hs,
        SetTempOutcome.isSilentNoOp]
    · intro sct hs hx
      simp only [set_room_target_temperature, hmode, hcur, if_neg hd, hs, hx,
        SetTempOutcome.isSilentNoOp]
    · intro hb
      cases hs : page.scriptText with
      | none =>
          simp only [set_room_target_temperature, hmode, hcur, if_neg hd, hs,
            SetTempOutcome.isSilentNoOp]
      | some sct =>
          cases hx : extractDollarId sct with
          | none =>
              simp only [set_room_target_temperature, hmode, hcur, if_neg hd,
                hs, hx, SetTempOutcome.isSilentNoOp]
          | some elemId =>
              simp only [set_room_target_temperature, hmode, hcur, if_neg hd,
                hs, hx, if_pos hb, SetTempOutcome.isSilentNoOp]
    · intro sct elemId hs hx hf
      by_cases hb : page.buttons = []
      · simp only [set_room_target_temperature, hmode, hcur, if_neg hd, hs, hx,
          if_pos hb, SetTempOutcome.isSilentNoOp]
      · simp only [set_room_target_temperature, hmode, hcur, if_neg hd, hs, hx,
          if_neg hb, hf, SetTempOutcome.isSilentNoOp]
    · intro sct elemId curIdx btn hs hx hf hib hget hbad
      have hb : page.buttons ≠ [] := by
        intro h
        rw [h] at hf
        simp [List.findIdx?] at hf
      rcases hbad with hsw | hlen
      · simp only [set_room_target_temperature, hmode, hcur, if_neg hd, hs, hx,
          if_neg hb, hf, if_neg hib, hget, hsw, SetTempOutcome.isSilentNoOp,
          Bool.false_eq_true, if_false]
      · simp only [set_room_target_temperature, hmode, hcur, if_neg hd, hs, hx,
          if_neg hb, hf, if_neg hib, hget]
        rcases hp : onclickParams btn.onclick with _ | ⟨a, _ | ⟨b, _ | ⟨c, _ | rest⟩⟩⟩
        · cases hq : pyStartsWith btn.onclick "javascript:setTemperature" <;> rfl
        · cases hq : pyStartsWith btn.onclick "javascript:setTemperature" <;> rfl
        · cases hq : pyStartsWith btn.onclick "javascript:setTemperature" <;> rfl
        · rw [hp] at hlen
          simp at hlen
        · cases hq : pyStartsWith btn.onclick "javascript:setTemperature" <;> rfl

/-- C2 witness: a page with a parseable current target and no script tag
returns silently. -/
theorem set_room_target_markup_silent_witness :
    (set_room_target_temperature "room1" pageNoScript
      (mkRat 43 2)).isSilentNoOp = true :=
  (set_room_target_markup_silent "room1" pageNoScript (mkRat 43 2)
    (mkRat 21 1) "21.0째C" rfl (by decide)).1 rfl

/-- C2 counterexample: a page whose `#myModeVal` element is missing — a
markup deviation — makes `set_room_target_temperature` raise
`AttributeError` rather than return silently. -/
theorem set_room_target_missing_target_raises :
    set_room_target_temperature "room1" pageNoModeVal (mkRat 43 2) =
      .raised .attributeError := by decide

/-- C8: when the settings page reports a current target equal to the
desired target, `set_room_target_temperature` returns the zero-delta
no-change outcome and issues zero HTTP requests beyond the initial
settings-page fetch. -/
theorem set_room_target_zero_delta (room_id : String) (page : SettingsPage)
    (target current : ℚ) (mt : String)
    (hmode : page.myModeValText = some mt)
    (hcur : pyFloat? (pyDropLast mt 2) = some current)
    (heq : current = target) :
    set_room_target_temperature room_id page target = .noChange ∧
    extraHttpRequests (set_room_target_temperature room_id page target) = 0 := by
  subst heq
  have h0 : ratSub current current = 0 := by
    rw [ratSub_eq_sub]; exact sub_self current
  have hnc : set_room_target_temperature room_id page current = .noChange := by
    simp only [set_room_target_temperature, hmode, hcur, if_pos h0]
  exact ⟨hnc, by rw [hnc]; rfl⟩

/-- C8 witness: current target 21.0, desired target 21.0 — no POST, no
error. -/
theorem set_room_target_zero_delta_witness :
    set_room_target_temperature "room1" pageC8 (mkRat 21 1) = .noChange ∧
    extraHttpRequests
      (set_room_target_temperature "room1" pageC8 (mkRat 21 1)) = 0 :=
  set_room_target_zero_delta "room1" pageC8 (mkRat 21 1) (mkRat 21 1)
    "21.0째C" rfl (by decide) (by decide)

end WavinApi

namespace WavinApi

/-- C10 counterexample: after `close` the stored session token is still
present, still rendered into the next request's Cookie header, and no
fresh authentication is triggered. -/
theorem close_keeps_token_counterexample :
    (close ⟨some "abc", some ()⟩).session_id = some "abc" ∧
    cookieHeader (close ⟨some "abc", some ()⟩) = "PHPSESSID=abc" ∧
    needsAuth (close ⟨some "abc", some ()⟩) = false :=
  ⟨rfl, rfl, rfl⟩

/-- C10 (amended): `close` clears only the transport-session reference;
the stored session token survives, the Cookie header attached to any
later request is unchanged, and no fresh authentication is required. -/
theorem close_clears_transport_only (st : ClientState) :
    (close st).transport = none ∧
    (close st).session_id = st.session_id ∧
    cookieHeader (close st) = cookieHeader st ∧
    needsAuth (close st) = needsAuth st :=
  ⟨rfl, rfl, rfl, rfl⟩

/-- Looking up in a cons cell of the rooms dict. -/
theorem dictGet_cons (k1 : String) (v1 : RoomInfo) (rest : RoomDict)
    (k : String) :
    dictGet? ((k1, v1) :: rest) k =
      if k1 == k then some v1 else dictGet? rest k := rfl

/-- A key that does not occur yields no entry. -/
theorem dictGet_eq_none_of_not_mem (d : RoomDict) (k : String)
    (h : k ∉ d.map Prod.fst) : dictGet? d k = none := by
  induction d with
  | nil => rfl
  | cons p rest ih =>
      obtain ⟨k1, v1⟩ := p
      simp only [List.map_cons, List.mem_cons, not_or] at h
      have hk : (k1 == k) = false := by
        simp only [beq_eq_false_iff_ne, ne_eq]
        exact fun hh => h.1 hh.symm
      simp [dictGet?, hk, ih h.2]

/-- Lookup through an appended dict: first list first. -/
theorem dictGet_append (d d2 : RoomDict) (k : String) :
    dictGet? (d ++ d2) k = (dictGet? d k).or (dictGet? d2 k) := by
  induction d with
  | nil => simp [dictGet?]
  | cons p rest ih =>
      obtain ⟨k1, v1⟩ := p
      by_cases hp : (k1 == k) = true
      · simp [dictGet?, hp]
      · simp [dictGet?, hp, ih]

/-- The overwrite map rewrites an entry whose key is `k`. -/
theorem overwrite_head_eq (p : String × RoomInfo) (k : String) (v : RoomInfo)
    (hp : (p.1 == k) = true) :
    (if p.1 == k then (k, v) else p) = (k, v) := if_pos hp

/-- The overwrite map keeps an entry whose key is not `k`. -/
theorem overwrite_head_ne (p : String × RoomInfo) (k : String) (v : RoomInfo)
    (hp : (p.1 == k) = false) :
    (if p.1 == k then (k, v) else p) = p := if_neg (by simp [hp])

/-- Overwriting key `k` does not disturb lookups of other keys. -/
theorem dictGet_overwrite_ne (d : RoomDict) (k k2 : String) (v : RoomInfo)
    (h : k2 ≠ k) :
    dictGet? (d.map fun p => if p.1 == k then (k, v) else p) k2 =
      dictGet? d k2 := by
  induction d with
  | nil => rfl
  | cons p rest ih =>
      obtain ⟨k1, v1⟩ := p
      have hkk2 : ((k : String) == k2) = false := by
        simp only [beq_eq_false_iff_ne, ne_eq]
        exact fun hh => h hh.symm
      by_cases hp : (k1 == k) = true
      · have hk1 : k1 = k := by simpa using hp
        have hk12 : (k1 == k2) = false := by
          simp only [beq_eq_false_iff_ne, ne_eq, hk1]
          exact fun hh => h hh.symm
        rw [List.map_cons, overwrite_head_eq (k1, v1) k v hp, dictGet_cons,
          dictGet_cons, ih]
        simp [hkk2, hk12]
      · have hpf : (k1 == k) = false := by simpa using hp
        rw [List.map_cons, overwrite_head_ne (k1, v1) k v hpf, dictGet_cons,
          dictGet_cons, ih]

/-- Overwriting key `k` makes the lookup of `k` find the new value. -/
theorem dictGet_overwrite_eq (d : RoomDict) (k : String) (v : RoomInfo)
    (h : d.any (fun p => p.1 == k) = true) :
    dictGet? (d.map fun p => if p.1 == k then (k, v) else p) k = some v := by
  induction d with
  | nil => simp at h
  | cons p rest ih =>
      obtain ⟨k1, v1⟩ := p
      by_cases hp : (k1 == k) = true
      · rw [List.map_cons, overwrite_head_eq (k1, v1) k v hp, dictGet_cons]
        simp
      · have hpf : (k1 == k) = false := by simpa using hp
        have h2 : rest.any (fun p => p.1 == k) = true := by
          simpa [hpf] using h
        rw [List.map_cons, overwrite_head_ne (k1, v1) k v hpf, dictGet_cons,
          ih h2]
        simp [hpf]

/-- Python `d[k] = v` then `d[k2]`: the overwritten key reads the new
value, every other key is untouched. -/
theorem dictGet_dictInsert (d : RoomDict) (k k2 : String) (v : RoomInfo) :
    dictGet? (dictInsert d k v) k2 =
      if k2 = k then some v else dictGet? d k2 := by
  by_cases hmem : d.any (fun p => p.1 == k) = true
  · by_cases hk : k2 = k
    · subst hk
      unfold dictInsert
      rw [if_pos hmem, dictGet_overwrite_eq d k2 v hmem]
      simp
    · unfold dictInsert
      rw [if_pos hmem, dictGet_overwrite_ne d k k2 v hk]
      simp [hk]
  · by_cases hk : k2 = k
    · subst hk
      have hnone : dictGet? d k2 = none := by
        apply dictGet_eq_none_of_not_mem
        intro hc
        rcases List.mem_map.mp hc with ⟨p, hp, hpk⟩
        exact hmem (List.any_eq_true.mpr ⟨p, hp, by simp [hpk]⟩)
      simp [dictInsert, hmem, dictGet_append, hnone, dictGet?]
    · have hk2 : ((k : String) == k2) = false := by
        simp only [beq_eq_false_iff_ne, ne_eq]
        exact fun hh => hk hh.symm
      simp [dictInsert, hmem, dictGet_append, dictGet?, hk2, hk]

/-- Keys after `dictInsert`: overwriting keeps the key list, appending
adds the new key at the end; either way key-uniqueness is preserved. -/
theorem nodup_keys_dictInsert (d : RoomDict) (k : String) (v : RoomInfo)
    (h : (d.map Prod.fst).Nodup) :
    ((dictInsert d k v).map Prod.fst).Nodup := by
  by_cases hmem : d.any (fun p => p.1 == k) = true
  · have hkeys : (dictInsert d k v).map Prod.fst = d.map Prod.fst := by
      simp only [dictInsert, hmem, if_true, if_pos, List.map_map]
      refine List.map_congr_left ?_
      intro p _
      by_cases hp : p.1 == k
      · have : p.1 = k := by simpa using hp
        simp [Function.comp, hp, this]
      · simp [Function.comp, hp]
    rwa [hkeys]
  · have hnot : k ∉ d.map Prod.fst := by
      intro hc
      rcases List.mem_map.mp hc with ⟨p, hp, hpk⟩
      exact hmem (List.any_eq_true.mpr ⟨p, hp, by simp [hpk]⟩)
    have hkeys : (dictInsert d k v).map Prod.fst = d.map Prod.fst ++ [k] := by
      simp [dictInsert, hmem]
    rw [hkeys]
    exact List.Nodup.append h (List.nodup_singleton k)
      (by intro a ha hb; simp at hb; subst hb; exact hnot ha)

/-- The room-block loop produces a dict with pairwise-distinct keys. -/
theorem parseRoomsAux_nodup (es : List RoomEntry) :
    ∀ (acc : RoomDict), (acc.map Prod.fst).Nodup →
    ∀ d, parseRoomsAux es acc = .ok d → (d.map Prod.fst).Nodup := by
  induction es with
  | nil =>
      intro acc hacc d hd
      cases hd
      exact hacc
  | cons e rest ih =>
      intro acc hacc d hd
      cases hpe : parseRoomEntry e with
      | error ex =>
          simp only [parseRoomsAux, hpe] at hd
          exact Except.noConfusion hd
      | ok kv =>
          simp only [parseRoomsAux, hpe] at hd
          exact ih (dictInsert acc kv.1 kv.2)
            (nodup_keys_dictInsert acc kv.1 kv.2 hacc) d hd

/-- A parsed listing page has pairwise-distinct room identifiers. -/
theorem parseListingPage_nodup (p : ListingPage) (d : RoomDict)
    (h : parseListingPage p = .ok d) : (d.map Prod.fst).Nodup :=
  parseRoomsAux_nodup p.entries [] (by simp) d h

/-- `dict.update` lookup: the updating dict wins, the base dict is the
fallback — provided the updating dict has pairwise-distinct keys. -/
theorem dictGet_dictUpdate (d d2 : RoomDict) (k : String)
    (hnd : (d2.map Prod.fst).Nodup) :
    dictGet? (dictUpdate d d2) k = (dictGet? d2 k).or (dictGet? d k) := by
  induction d2 generalizing d with
  | nil => simp [dictUpdate, dictGet?]
  | cons p rest ih =>
      obtain ⟨k1, v1⟩ := p
      have hrest : (rest.map Prod.fst).Nodup := (List.nodup_cons.mp hnd).2
      have hnotin : k1 ∉ rest.map Prod.fst := (List.nodup_cons.mp hnd).1
      have hstep : dictUpdate d ((k1, v1) :: rest) =
          dictUpdate (dictInsert d k1 v1) rest := rfl
      rw [hstep, ih (dictInsert d k1 v1) hrest, dictGet_cons,
        dictGet_dictInsert]
      by_cases hk : k = k1
      · subst hk
        have : dictGet? rest k = none :=
          dictGet_eq_none_of_not_mem rest k hnotin
        simp [this]
      · have hk2 : ¬((k1 : String) == k) = true := by
          simpa using fun hh => hk hh.symm
        simp [hk, hk2]

/-- C6 (amended): a room entry whose two secondary fields end with the
code's two-character degree suffix `째C` and with ` rh%` respectively
parses to the suffix-stripped, whitespace-trimmed temperature and
humidity values. -/
theorem parse_room_suffix_strip (nm link t1 t2 : String)
    (h1 : pyEndsWith t1 " rh%" = false)
    (h2 : pyEndsWith t1 "째C" = true)
    (h3 : pyEndsWith t2 " rh%" = true) :
    parseRoomEntry ⟨some nm, some link, [t1, t2]⟩ =
      .ok (lastSegment link,
        ⟨nm, pyStrip (pyDropLast t1 2), pyStrip (pyDropLast t2 4)⟩) := by
  simp [parseRoomEntry, scanTherm, h1, h2, h3]

/-- C6 witness: fields `21.5째C` and `45 rh%` parse to temperature `21.5`
and humidity `45`. -/
theorem parse_room_suffix_strip_witness :
    parseRoomEntry ⟨some "Living", some "settings/9130575",
        ["21.5째C", "45 rh%"]⟩ =
      .ok ("9130575", ⟨"Living", "21.5", "45"⟩) :=
  parse_room_suffix_strip "Living" "settings/9130575" "21.5째C" "45 rh%"
    rfl rfl rfl

/-- C6 counterexample: a field carrying the genuine degree sign `°C`
(U+00B0) does not match the code's suffix test — the code's suffix is the
mojibake character U+C9F8 followed by `C` — so the entry of the claim's
concrete example fails to parse at all instead of yielding temperature
`21.5`. -/
theorem parse_room_degree_sign_counterexample :
    parseRoomEntry ⟨some "Living", some "settings/9130575",
        ["21.5°C", "45 rh%"]⟩ = .error .attributeError ∧
    pyEndsWith "21.5°C" "째C" = false :=
  ⟨rfl, rfl⟩

/-- C7: a listing page containing a room entry with a temperature-suffixed
field but no humidity-suffixed field makes the whole fetch fail with
`ConnectionError` — `humidity` is still `None` at line 263, `.strip()`
raises, and the handler at line 273 re-raises — instead of succeeding
with the humidity absent. -/
theorem listRooms_missing_humidity_fails :
    parseRoomEntry entryC7 = .error .attributeError ∧
    listRooms tC7 1 = .error .connectionError :=
  ⟨rfl, rfl⟩

end WavinApi

namespace WavinApi

/-- A two-page run: page 1 is fetched and parsed, its visible next
control walks to page 2, which has none; the dicts merge with
`dict.update` and exactly two fetches and no re-authentication happen. -/
theorem run_two_pages (t : Transport) (pg1 pg2 : ListingPage)
    (d1 d2 : RoomDict) (fuel : Nat)
    (h1 : t.resp 1 0 = .ok pg1) (h2 : t.resp 2 0 = .ok pg2)
    (hn1p : pg1.nextPresent = true) (hn1h : pg1.nextHidden = false)
    (hn2 : pg2.nextPresent = false)
    (hp1 : parseListingPage pg1 = .ok d1)
    (hp2 : parseListingPage pg2 = .ok d2)
    (hfuel : 2 ≤ fuel) :
    listRooms t fuel = .ok (dictUpdate d1 d2, 2, 0) := by
  obtain ⟨f, rfl⟩ : ∃ f, fuel = f + 2 := ⟨fuel - 2, by omega⟩
  simp only [listRooms, fetch_and_parse_rooms, get_request, h1, hp1, hn1p,
    hn1h, h2, hp2, hn2, Bool.not_false, Bool.true_and, Bool.false_and,
    Bool.false_eq_true, if_true, if_false]

/-- C5: for a two-page listing where page 1 has a visible next control
and page 2 has none, `listRooms` fetches exactly the two pages starting
at page 1 and returns the merged mapping, page 2's entries taking
precedence on any shared key. -/
theorem listRooms_two_pages (t : Transport) (pg1 pg2 : ListingPage)
    (d1 d2 : RoomDict) (fuel : Nat)
    (h1 : t.resp 1 0 = .ok pg1) (h2 : t.resp 2 0 = .ok pg2)
    (hn1p : pg1.nextPresent = true) (hn1h : pg1.nextHidden = false)
    (hn2 : pg2.nextPresent = false)
    (hp1 : parseListingPage pg1 = .ok d1)
    (hp2 : parseListingPage pg2 = .ok d2)
    (hfuel : 2 ≤ fuel) :
    listRooms t fuel = .ok (dictUpdate d1 d2, 2, 0) ∧
    (∀ k, dictGet? (dictUpdate d1 d2) k =
      (dictGet? d2 k).or (dictGet? d1 k)) :=
  ⟨run_two_pages t pg1 pg2 d1 d2 fuel h1 h2 hn1p hn1h hn2 hp1 hp2 hfuel,
   fun k => dictGet_dictUpdate d1 d2 k (parseListingPage_nodup pg2 d2 hp2)⟩

/-- C5 witness: the concrete two-page listing returns the union of both
pages' rooms after exactly two fetches. -/
theorem listRooms_two_pages_witness :
    listRooms tC5 2 =
      .ok ([("11", ⟨"Living", "21.5", "45"⟩),
        ("12", ⟨"Bedroom", "20.0", "40"⟩)], 2, 0) :=
  (listRooms_two_pages tC5 pgC5a pgC5b
    [("11", ⟨"Living", "21.5", "45"⟩)] [("12", ⟨"Bedroom", "20.0", "40"⟩)]
    2 rfl rfl rfl rfl rfl rfl rfl (by decide)).1

/-- C9: when the same room identifier appears on both pages of a two-page
listing, the returned directory maps it to the later page's entry —
`dict.update` overwrite semantics. -/
theorem listRooms_duplicate_key_later_page (t : Transport)
    (pg1 pg2 : ListingPage) (d1 d2 : RoomDict) (fuel : Nat)
    (h1 : t.resp 1 0 = .ok pg1) (h2 : t.resp 2 0 = .ok pg2)
    (hn1p : pg1.nextPresent = true) (hn1h : pg1.nextHidden = false)
    (hn2 : pg2.nextPresent = false)
    (hp1 : parseListingPage pg1 = .ok d1)
    (hp2 : parseListingPage pg2 = .ok d2)
    (hfuel : 2 ≤ fuel)
    (k : String) (w v : RoomInfo)
    (_hk1 : dictGet? d1 k = some w) (hk2 : dictGet? d2 k = some v) :
    listRooms t fuel = .ok (dictUpdate d1 d2, 2, 0) ∧
    dictGet? (dictUpdate d1 d2) k = some v :=
  ⟨run_two_pages t pg1 pg2 d1 d2 fuel h1 h2 hn1p hn1h hn2 hp1 hp2 hfuel, by
    rw [dictGet_dictUpdate d1 d2 k (parseListingPage_nodup pg2 d2 hp2), hk2]
    rfl⟩

/-- C9 witness: identifier `77` on both pages; the directory holds the
later page's entry. -/
theorem listRooms_duplicate_key_later_page_witness :
    listRooms tC9 2 = .ok ([("77", ⟨"AlphaLater", "22.0", "50"⟩)], 2, 0) ∧
    dictGet? [("77", ⟨"AlphaLater", "22.0", "50"⟩)] "77" =
      some ⟨"AlphaLater", "22.0", "50"⟩ :=
  listRooms_duplicate_key_later_page tC9 pgC9a pgC9b
    [("77", ⟨"Alpha", "21.0", "45"⟩)] [("77", ⟨"AlphaLater", "22.0", "50"⟩)]
    2 rfl rfl rfl rfl rfl rfl rfl (by decide) "77"
    ⟨"Alpha", "21.0", "45"⟩ ⟨"AlphaLater", "22.0", "50"⟩ rfl rfl

end WavinApi

namespace WavinApi

/-- More fuel never changes a successful `_get_request`. -/
theorem get_request_mono (t : Transport) (page : Nat) :
    ∀ fuel fuel2 attempt res, fuel ≤ fuel2 →
    get_request t page attempt fuel = .ok res →
    get_request t page attempt fuel2 = .ok res := by
  intro fuel
  induction fuel with
  | zero =>
      intro fuel2 attempt res _ h
      exact Except.noConfusion h
  | succ fl ih =>
      intro fuel2 attempt res hle hok
      obtain ⟨f2, rfl⟩ : ∃ f2, fuel2 = f2 + 1 := ⟨fuel2 - 1, by omega⟩
      simp only [get_request] at hok ⊢
      cases hr : t.resp page attempt with
      | ok body =>
          simp only [hr] at hok ⊢
          exact hok
      | unauthorized =>
          simp only [hr] at hok ⊢
          cases hrec : get_request t page (attempt + 1) fl with
          | error e =>
              rw [hrec] at hok
              exact Except.noConfusion hok
          | ok r3 =>
              rw [hrec] at hok
              rw [ih f2 (attempt + 1) r3 (by omega) hrec]
              exact hok
      | status c => rw [hr] at hok; exact Except.noConfusion hok
      | timeout => rw [hr] at hok; exact Except.noConfusion hok
      | netError => rw [hr] at hok; exact Except.noConfusion hok

/-- More fuel never changes a successful page walk. -/
theorem fetch_mono (t : Transport) :
    ∀ fuel fuel2 page res, fuel ≤ fuel2 →
    fetch_and_parse_rooms t page fuel = .ok res →
    fetch_and_parse_rooms t page fuel2 = .ok res := by
  intro fuel
  induction fuel with
  | zero =>
      intro fuel2 page res _ h
      exact Except.noConfusion h
  | succ fl ih =>
      intro fuel2 page res hle hok
      obtain ⟨f2, rfl⟩ : ∃ f2, fuel2 = f2 + 1 := ⟨fuel2 - 1, by omega⟩
      simp only [fetch_and_parse_rooms] at hok ⊢
      cases hg : get_request t page 0 (fl + 1) with
      | error e =>
          rw [hg] at hok
          exact Except.noConfusion hok
      | ok gr =>
          simp only [hg] at hok
          rw [get_request_mono t page (fl + 1) (f2 + 1) 0 gr (by omega) hg]
          cases hp : parseListingPage gr.1 with
          | error e =>
              simp only [hp] at hok
              exact Except.noConfusion hok
          | ok rooms =>
              simp only [hp] at hok ⊢
              by_cases hnx : (gr.1.nextPresent && !gr.1.nextHidden) = true
              · rw [if_pos hnx] at hok ⊢
                cases hrec : fetch_and_parse_rooms t (page + 1) fl with
                | error e =>
                    rw [hrec] at hok
                    exact Except.noConfusion hok
                | ok rr =>
                    rw [hrec] at hok
                    rw [ih f2 (page + 1) rr (by omega) hrec]
                    exact hok
              · rw [if_neg hnx] at hok ⊢
                exact hok

/-- Two servers that agree on a page give the same `_get_request` runs
there. -/
theorem get_request_eq_of_agree (t tc : Transport) (p : Nat)
    (hag : ∀ a, t.resp p a = tc.resp p a) :
    ∀ fuel a, get_request t p a fuel = get_request tc p a fuel := by
  intro fuel
  induction fuel with
  | zero => intro a; rfl
  | succ fl ih =>
      intro a
      simp only [get_request, hag a, ih (a + 1)]

/-- Two servers that agree on every page from `p` on give the same page
walks from `p`. -/
theorem fetch_eq_of_agree (t tc : Transport) :
    ∀ fuel p, (∀ q a, p ≤ q → t.resp q a = tc.resp q a) →
    fetch_and_parse_rooms t p fuel = fetch_and_parse_rooms tc p fuel := by
  intro fuel
  induction fuel with
  | zero => intro p _; rfl
  | succ fl ih =>
      intro p hag
      have hg : get_request t p 0 (fl + 1) = get_request tc p 0 (fl + 1) :=
        get_request_eq_of_agree t tc p (fun a => hag p a le_rfl) (fl + 1) 0
      have hr : fetch_and_parse_rooms t (p + 1) fl =
          fetch_and_parse_rooms tc (p + 1) fl :=
        ih (p + 1) (fun q a hq => hag q a (by omega))
      simp only [fetch_and_parse_rooms, hg, hr]

/-- Consuming the prepended 401: from attempt 1 on, the faulty server
behaves as the clean one on page `j`. -/
theorem get_request_shift (t tc : Transport) (j : Nat)
    (hshift : ∀ a, t.resp j (a + 1) = tc.resp j a) :
    ∀ fuel a, get_request t j (a + 1) fuel = get_request tc j a fuel := by
  intro fuel
  induction fuel with
  | zero => intro a; rfl
  | succ fl ih =>
      intro a
      simp only [get_request, hshift a, ih (a + 1)]

/-- A `_get_request` run with no re-authentication succeeded on its very
first attempt. -/
theorem get_request_ok_inv (tc : Transport) (p a fuel : Nat)
    (body : ListingPage) (fc : Nat)
    (h : get_request tc p a fuel = .ok (body, fc, 0)) :
    tc.resp p a = .ok body ∧ fc = 1 := by
  cases fuel with
  | zero => exact Except.noConfusion h
  | succ fl =>
      simp only [get_request] at h
      cases hr : tc.resp p a with
      | ok b =>
          rw [hr] at h
          simp only [Except.ok.injEq, Prod.mk.injEq] at h
          exact ⟨by rw [h.1], h.2.1.symm⟩
      | unauthorized =>
          rw [hr] at h
          cases hrec : get_request tc p (a + 1) fl with
          | error e =>
              rw [hrec] at h
              exact Except.noConfusion h
          | ok r3 =>
              obtain ⟨b2, f2, r2⟩ := r3
              rw [hrec] at h
              simp only [Except.ok.injEq, Prod.mk.injEq] at h
              omega
      | status c => rw [hr] at h; exact Except.noConfusion h
      | timeout => rw [hr] at h; exact Except.noConfusion h
      | netError => rw [hr] at h; exact Except.noConfusion h

/-- One unfolding step of the page walk when the fetch and the parse
both succeed. -/
theorem fetch_step (t : Transport) (page fuel : Nat) (body : ListingPage)
    (fc rc : Nat) (rooms : RoomDict)
    (hg : get_request t page 0 (fuel + 1) = .ok (body, fc, rc))
    (hp : parseListingPage body = .ok rooms) :
    fetch_and_parse_rooms t page (fuel + 1) =
      if body.nextPresent && !body.nextHidden then
        match fetch_and_parse_rooms t (page + 1) fuel with
        | .error _ => .error .connectionError
        | .ok (rooms2, f2, r2) =>
            .ok (dictUpdate rooms rooms2, fc + f2, rc + r2)
      else .ok (rooms, fc, rc) := by
  simp only [fetch_and_parse_rooms, hg, hp]

/-- The single-401 simulation: a clean walk from page `p` that visits
page `j` (and re-authenticates nowhere), replayed against the server that
401s once on the first fetch of page `j`, performs exactly one
re-authentication and one extra fetch and returns the same directory. -/
theorem fetch_single_401 (t tc : Transport) (j : Nat)
    (h401 : t.resp j 0 = .unauthorized)
    (hshift : ∀ a, t.resp j (a + 1) = tc.resp j a)
    (hagree : ∀ p a, p ≠ j → t.resp p a = tc.resp p a) :
    ∀ fuel p d f, fetch_and_parse_rooms tc p fuel = .ok (d, f, 0) →
      p ≤ j → j < p + f →
      fetch_and_parse_rooms t p (fuel + 1) = .ok (d, f + 1, 1) := by
  intro fuel
  induction fuel with
  | zero =>
      intro p d f h _ _
      exact Except.noConfusion h
  | succ fl ih =>
      intro p d f hok hpj hjf
      simp only [fetch_and_parse_rooms] at hok
      cases hg : get_request tc p 0 (fl + 1) with
      | error e =>
          rw [hg] at hok
          exact Except.noConfusion hok
      | ok gr =>
          obtain ⟨body, fc, rc⟩ := gr
          simp only [hg] at hok
          cases hp : parseListingPage body with
          | error e =>
              simp only [hp] at hok
              exact Except.noConfusion hok
          | ok rooms =>
              simp only [hp] at hok
              by_cases hnx : (body.nextPresent && !body.nextHidden) = true
              · rw [if_pos hnx] at hok
                cases hrec : fetch_and_parse_rooms tc (p + 1) fl with
                | error e =>
                    rw [hrec] at hok
                    exact Except.noConfusion hok
                | ok rr =>
                    obtain ⟨rooms2, fc2, rc2⟩ := rr
                    rw [hrec] at hok
                    simp only [Except.ok.injEq, Prod.mk.injEq] at hok
                    obtain ⟨hd, hf, hr0⟩ := hok
                    have hrc : rc = 0 := by omega
                    have hrc2 : rc2 = 0 := by omega
                    subst hrc; subst hrc2
                    obtain ⟨hresp, hfc⟩ := get_request_ok_inv tc p 0 (fl + 1) body fc hg
                    by_cases hpeq : p = j
                    · subst hpeq
                      have hget : get_request t p 0 (fl + 1 + 1) =
                          .ok (body, 2, 1) := by
                        subst hfc
                        simp only [get_request, h401, hshift 0, hresp]
                      have hrecT : fetch_and_parse_rooms t (p + 1) (fl + 1) =
                          .ok (rooms2, fc2, 0) := by
                        rw [fetch_eq_of_agree t tc (fl + 1) (p + 1)
                          (fun q a hq => hagree q a (by omega))]
                        exact fetch_mono tc fl (fl + 1) (p + 1) (rooms2, fc2, 0)
                          (by omega) hrec
                      rw [fetch_step t p (fl + 1) body 2 1 rooms hget hp,
                        if_pos hnx]
                      simp only [hrecT, Except.ok.injEq, Prod.mk.injEq]
                      refine ⟨hd, by omega, by trivial⟩
                    · have hlt : p < j := lt_of_le_of_ne hpj hpeq
                      have hget : get_request t p 0 (fl + 1 + 1) =
                          .ok (body, fc, 0) := by
                        rw [get_request_eq_of_agree t tc p
                          (fun a => hagree p a hpeq) (fl + 1 + 1) 0]
                        exact get_request_mono tc p (fl + 1) (fl + 1 + 1) 0
                          (body, fc, 0) (by omega) hg
                      have hrecT : fetch_and_parse_rooms t (p + 1) (fl + 1) =
                          .ok (rooms2, fc2 + 1, 1) :=
                        ih (p + 1) rooms2 fc2 hrec (by omega) (by omega)
                      rw [fetch_step t p (fl + 1) body fc 0 rooms hget hp,
                        if_pos hnx]
                      simp only [hrecT, Except.ok.injEq, Prod.mk.injEq]
                      refine ⟨hd, by omega, by trivial⟩
              · rw [if_neg hnx] at hok
                simp only [Except.ok.injEq, Prod.mk.injEq] at hok
                obtain ⟨hd, hf, hr0⟩ := hok
                subst hr0
                obtain ⟨hresp, hfc⟩ := get_request_ok_inv tc p 0 (fl + 1) body fc hg
                have hpeq : p = j := by omega
                subst hpeq
                have hget : get_request t p 0 (fl + 1 + 1) =
                    .ok (body, 2, 1) := by
                  subst hfc
                  simp only [get_request, h401, hshift 0, hresp]
                rw [fetch_step t p (fl + 1) body 2 1 rooms hget hp, if_neg hnx]
                simp only [Except.ok.injEq, Prod.mk.injEq]
                refine ⟨hd, by omega, by trivial⟩

/-- C4: a paginated listing fetch in which exactly one page request (the
first fetch of page `j`, a page the walk visits) returns HTTP 401 and its
retry succeeds performs exactly one re-authentication and exactly one
retry of that same page, and returns the same directory as the run in
which that page had succeeded the first time. -/
theorem listRooms_single_401_retry (t tc : Transport) (j fuel : Nat)
    (d : RoomDict) (f : Nat)
    (h401 : t.resp j 0 = .unauthorized)
    (hshift : ∀ a, t.resp j (a + 1) = tc.resp j a)
    (hagree : ∀ p a, p ≠ j → t.resp p a = tc.resp p a)
    (hclean : listRooms tc fuel = .ok (d, f, 0))
    (hj1 : 1 ≤ j) (hjf : j < 1 + f) :
    listRooms t (fuel + 1) = .ok (d, f + 1, 1) :=
  fetch_single_401 t tc j h401 hshift hagree fuel 1 d f hclean hj1 hjf

/-- C4 witness: a one-page listing whose first fetch 401s; the replay
fetches twice, re-authenticates once, and returns the same (empty)
directory. -/
theorem listRooms_single_401_retry_witness :
    listRooms t401C4 2 = .ok ([], 2, 1) :=
  listRooms_single_401_retry t401C4 tCleanC4 1 1 [] 1 rfl (fun _ => rfl)
    (fun p a hp => by
      match p with
      | 0 => rfl
      | 1 => exact absurd rfl hp
      | n + 2 => rfl)
    rfl (by decide) (by decide)

end WavinApi
